import Mathlib

/-!
Formal model of the `usingstdcpp-2025` sample servers: four variants of a
small HTTP server that resolves `GET /employee/{id}` (or `GET /{id}` in the
early variants) to a single SQL lookup and returns the employee's last name
as a plaintext body.  The model embeds the request parsing, the request
handler, the per-session pipeline, the accept loop and the shutdown wiring of
`cancellations.cpp`, together with the handler of `5_coroutine_timeouts.cpp`
and the synchronous pipeline of `1_sync.cpp` where the claims refer to them.
External collaborators (Beast's message reading and writing, the Boost.MySQL
pool, the asio io_context) appear at their operation boundaries: each awaited
operation is an outcome value, and each session or request produces the trace
of its observable events.
-/

/-- HTTP request methods distinguished by the servers.  `parse_request`
only tests whether the verb is GET, so the remaining verbs matter only as
being different from it. -/
inductive Verb
  | get
  | post
  | head
  | other
  deriving DecidableEq

/-- An HTTP request as the servers see it after `http::async_read`: the
request line's method, target and version (the body type is `empty_body`).
The target is kept as its character sequence. -/
structure Request where
  method : Verb
  target : List Char
  version : Nat
  deriving DecidableEq

/-- An HTTP response under construction or on the wire: status code, string
body, version, the keep-alive flag and whether `prepare_payload()` has run
(i.e. the payload metadata of the message is set). -/
structure Response where
  status : Nat
  body : String
  version : Nat
  keepAlive : Bool
  prepared : Bool
  deriving DecidableEq

/-- A default-constructed `http::response<http::string_body>`: status 200,
empty body, version 1.1, keep-alive per version default, payload not yet
prepared. -/
def defaultResponse : Response :=
  { status := 200, body := "", version := 11, keepAlive := true, prepared := false }

/-- Numeric value of a run of decimal digit characters, most significant
first — the accumulation `std::from_chars` performs (48 is the code point of
the digit zero). -/
def digitsToNat (ds : List Char) : Nat :=
  ds.foldl (fun a c => a * 10 + (c.toNat - 48)) 0

/-- Largest value representable in `std::int64_t`. -/
def int64Max : Int := ((2 ^ 63 - 1 : Nat) : Int)

/-- Smallest value representable in `std::int64_t`. -/
def int64Min : Int := -((2 ^ 63 : Nat) : Int)

/-- Largest value representable in `std::uint64_t`. -/
def uint64Max : Nat := 2 ^ 64 - 1

/-- The digit-run scan of `std::from_chars` for `std::int64_t`, after the
optional minus sign has been examined: read the longest run of decimal
digits; report `none` when `ec != errc()` — no digit at all
(invalid_argument) or a value outside the int64 range (result_out_of_range) —
and otherwise the signed value together with the number of characters
consumed, sign included. -/
def fromCharsScan (neg : Bool) (cs : List Char) : Option (Int × Nat) :=
  let ds := cs.takeWhile Char.isDigit
  if ds = [] then none
  else
    let v : Int := if neg then -((digitsToNat ds : Nat) : Int) else ((digitsToNat ds : Nat) : Int)
    if int64Min ≤ v ∧ v ≤ int64Max then some (v, (if neg then 1 else 0) + ds.length)
    else none

/-- Model of `std::from_chars(first, last, res)` for `std::int64_t` as used by
`parse_request`: for a signed destination type, from_chars accepts an optional
leading minus sign followed by decimal digits.  The result is the value and
the number of characters consumed when `ec == errc()`, and `none` otherwise;
`parse_request` distinguishes nothing finer than these two cases. -/
def from_chars_i64 (cs : List Char) : Option (Int × Nat) :=
  if cs.head? = some '-' then fromCharsScan true cs.tail else fromCharsScan false cs

/-- Model of `std::from_chars` for `std::uint64_t` as used by `try_parse_id`:
for an unsigned destination type no sign character is accepted. -/
def from_chars_u64 (cs : List Char) : Option (Nat × Nat) :=
  let ds := cs.takeWhile Char.isDigit
  if ds = [] then none
  else if digitsToNat ds ≤ uint64Max then some (digitsToNat ds, ds.length)
  else none

/-- The fixed target route `"/employee/"` required by `parse_request`
(cancellations.cpp). -/
def employeeRoute : List Char := ['/', 'e', 'm', 'p', 'l', 'o', 'y', 'e', 'e', '/']

/-- Model of `parse_request` (cancellations.cpp, lines 82–105): reject a
non-GET verb, require the target to start with `"/employee/"`, run int64
from_chars on the remainder, and reject when from_chars reports an error or
when it did not consume the remainder in full. -/
def parse_request (req : Request) : Option Int :=
  if req.method = Verb.get then
    if employeeRoute.isPrefixOf req.target then
      match from_chars_i64 (req.target.drop employeeRoute.length) with
      | none => none
      | some (v, consumed) =>
        if consumed = (req.target.drop employeeRoute.length).length then some v else none
    else none
  else none

/-- Model of `try_parse_id` (1_sync.cpp, 3_parallel_requests.cpp,
5_coroutine_timeouts.cpp): the target must start with `"/"` and the rest is
parsed as a uint64, rejecting when nothing was parsed or when characters
remain after the parsed digits. -/
def try_parse_id (target : List Char) : Option Nat :=
  match target with
  | '/' :: rest =>
    match from_chars_u64 rest with
    | none => none
    | some (v, consumed) => if consumed = rest.length then some v else none
  | _ => none

/-- Decimal digit characters of a natural number, most significant first;
fuel-indexed so that the definition is structural.  Fuel `n + 1` always
suffices for `n`. -/
def natDecimalAux : Nat → Nat → List Char
  | 0, _ => []
  | fuel + 1, n =>
    if n < 10 then [Nat.digitChar n]
    else natDecimalAux fuel (n / 10) ++ [Nat.digitChar (n % 10)]

/-- The canonical decimal digit string of a natural number. -/
def natDecimal (n : Nat) : List Char := natDecimalAux (n + 1) n

/-- A single SQL field value in a returned row.  The employee query selects
`last_name`, which can hold a string, a NULL, or in general a value of some
other type; `field_view::as_string()` succeeds only on the string
alternative. -/
inductive SqlField
  | str (s : String)
  | null
  | num (i : Int)
  deriving DecidableEq

/-- The exceptions that can cross the modelled operation boundaries.  All of
them derive from `std::exception`, so every catch clause written in the
servers catches each of them. -/
inductive Exn
  | poolTimeout
  | poolUnavailable
  | backendError
  | queryTimeout
  | operationAborted
  | badFieldAccess
  | indexOutOfRange
  | badOptionalAccess
  | protocolError
  | writeError
  deriving DecidableEq

deriving instance DecidableEq for Except

/-- Model of `field_view::as_string()`: the string when the field holds one,
and a thrown `bad_field_access` otherwise. -/
def as_string : SqlField → Except Exn String
  | SqlField.str s => Except.ok s
  | _ => Except.error Exn.badFieldAccess

/-- Observable events of one request or session, in program order: the
acquire attempt awaited on the pool (or, in the pool-less variants, the
connect), its success, the query issued on the connection, the return of the
pooled connection to the pool, a line logged to stderr, and a full response
leaving the server on the socket. -/
inductive Event
  | acquire
  | acquired
  | query
  | release
  | logError (e : Exn)
  | wroteBytes (r : Response)
  deriving DecidableEq

/-- Tests whether an event is the acquire attempt. -/
def isAcquire : Event → Bool
  | Event.acquire => true
  | _ => false

/-- Tests whether an event is a successful acquire. -/
def isAcquired : Event → Bool
  | Event.acquired => true
  | _ => false

/-- Tests whether an event is a query. -/
def isQuery : Event → Bool
  | Event.query => true
  | _ => false

/-- Tests whether an event is a release of the pooled connection. -/
def isRelease : Event → Bool
  | Event.release => true
  | _ => false

/-- Tests whether an event is a logged error. -/
def isLog : Event → Bool
  | Event.logError _ => true
  | _ => false

/-- Tests whether an event is a response written to the client. -/
def isWrite : Event → Bool
  | Event.wroteBytes _ => true
  | _ => false

/-- The store gateway at its boundary: the outcome the pool hands the session
when it awaits `async_get_connection` (in `5_coroutine_timeouts.cpp` and
`1_sync.cpp`, the outcome of connecting the `any_connection`), and the outcome
the connection hands back for `async_execute` on a given id.  The gateway is
shared state owned outside the core; a session only observes these two
outcomes. -/
structure Backend where
  acquire : Except Exn Unit
  query : Int → Except Exn (List (List SqlField))

/-- The try-block of `handle_request` (cancellations.cpp, lines 120–151),
with its event trace: parse the request and return 400 on failure before any
backend call; await a pooled connection; run the query; return 404 on an
empty result; otherwise the body is `rows().at(0).at(0).as_string()`.  A
failing step yields the thrown exception.  The `pooled_connection` is a
scoped resource: it is destroyed — returned to the pool — whenever control
leaves the block it lives in, normally or by unwinding, which the trace
records as one `release` event on every path that acquired. -/
def handle_request_try (b : Backend) (req : Request) : Except Exn Response × List Event :=
  match parse_request req with
  | none => (Except.ok { defaultResponse with status := 400 }, [])
  | some i =>
    match b.acquire with
    | Except.error e => (Except.error e, [Event.acquire])
    | Except.ok _ =>
      match b.query i with
      | Except.error e =>
        (Except.error e, [Event.acquire, Event.acquired, Event.query, Event.release])
      | Except.ok rows =>
        match rows with
        | [] =>
          (Except.ok { defaultResponse with status := 404 },
           [Event.acquire, Event.acquired, Event.query, Event.release])
        | row :: _ =>
          match row with
          | [] =>
            (Except.error Exn.indexOutOfRange,
             [Event.acquire, Event.acquired, Event.query, Event.release])
          | f :: _ =>
            match as_string f with
            | Except.error e =>
              (Except.error e, [Event.acquire, Event.acquired, Event.query, Event.release])
            | Except.ok s =>
              (Except.ok { defaultResponse with body := s },
               [Event.acquire, Event.acquired, Event.query, Event.release])

/-- `handle_request` (cancellations.cpp, lines 112–162): the try-block wrapped
in the catch-all that logs the failure to stderr and turns the declared-up-
front response into a 500.  The function always returns a response value; no
exception leaves it. -/
def handle_request (b : Backend) (req : Request) : Response × List Event :=
  match handle_request_try b req with
  | (Except.ok r, evs) => (r, evs)
  | (Except.error e, evs) =>
    ({ defaultResponse with status := 500 }, evs ++ [Event.logError e])

/-- The try-block of `handle_request` in 5_coroutine_timeouts.cpp (lines
74–96): `parse_id` calls `.value()` on `try_parse_id`'s result, so a request
that fails parsing throws `bad_optional_access` before any backend call; then
the coroutine connects, executes the query, answers 404 on an empty result
and otherwise takes `rows().at(0).at(0).as_string()` as body. -/
def handle_request_v5_try (b : Backend) (req : Request) : Except Exn Response × List Event :=
  match try_parse_id req.target with
  | none => (Except.error Exn.badOptionalAccess, [])
  | some i =>
    match b.acquire with
    | Except.error e => (Except.error e, [Event.acquire])
    | Except.ok _ =>
      match b.query (i : Int) with
      | Except.error e => (Except.error e, [Event.acquire, Event.acquired, Event.query])
      | Except.ok rows =>
        match rows with
        | [] =>
          (Except.ok { defaultResponse with status := 404 },
           [Event.acquire, Event.acquired, Event.query])
        | row :: _ =>
          match row with
          | [] =>
            (Except.error Exn.indexOutOfRange, [Event.acquire, Event.acquired, Event.query])
          | f :: _ =>
            match as_string f with
            | Except.error e => (Except.error e, [Event.acquire, Event.acquired, Event.query])
            | Except.ok s =>
              (Except.ok { defaultResponse with body := s },
               [Event.acquire, Event.acquired, Event.query])

/-- `handle_request` of 5_coroutine_timeouts.cpp (lines 70–107): the try-block
wrapped in the catch-all that logs the error and returns a fresh 500
response. -/
def handle_request_v5 (b : Backend) (req : Request) : Response × List Event :=
  match handle_request_v5_try b req with
  | (Except.ok r, evs) => (r, evs)
  | (Except.error e, evs) =>
    ({ defaultResponse with status := 500 }, evs ++ [Event.logError e])

/-- Whether — and at which suspended operation — the 30-second `cancel_after`
scope wrapping the co_spawned `handle_request` fires before the handler
returns.  A fired scope cancels the operation the handler is currently
awaiting, which then completes with `operation_aborted`; the coroutine itself
keeps executing from that point (cancellations.cpp, comments at lines
196–199). -/
inductive HandleCancel
  | noFire
  | duringAcquire
  | duringQuery
  deriving DecidableEq

/-- The backend outcomes as `handle_request` observes them when the
handle-stage scope fires: the operation being awaited at that moment
completes with `operation_aborted` instead of its ordinary outcome. -/
def Backend.withCancel (b : Backend) : HandleCancel → Backend
  | HandleCancel.noFire => b
  | HandleCancel.duringAcquire =>
    { acquire := Except.error Exn.operationAborted, query := b.query }
  | HandleCancel.duringQuery =>
    { acquire := b.acquire, query := fun _ => Except.error Exn.operationAborted }

/-- One session of cancellations.cpp at its operation boundaries: the outcome
of `http::async_read` under its 60-second scope (a `Request`, or the
exception thrown on a protocol error or read timeout), the backend outcomes,
whether the handle-stage scope fires, and the outcome of `http::async_write`
under its 60-second scope. -/
structure SessionEnv where
  readResult : Except Exn Request
  backend : Backend
  handleCancel : HandleCancel
  writeResult : Except Exn Unit

/-- How one `run_session` coroutine ends: with the response fully written, or
by an exception leaving the coroutine (which its spawner then observes). -/
inductive SessionResult
  | done (r : Response)
  | failed (e : Exn)
  deriving DecidableEq

/-- `run_session` (cancellations.cpp, lines 166–219): read one request (a
failure propagates out of the coroutine); co_spawn `handle_request` under
`asio::cancel_after(30s)` — the spawned coroutine converts every internal
failure, a fired scope included, into a response, so the co_await always
yields a response; stamp the request's version, disable keep-alive, prepare
the payload; write the response (a failure propagates out).  The trace
records a `wroteBytes` event only when the write completes. -/
def run_session (env : SessionEnv) : SessionResult × List Event :=
  match env.readResult with
  | Except.error e => (SessionResult.failed e, [])
  | Except.ok req =>
    let hr := handle_request (env.backend.withCancel env.handleCancel) req
    let res := { hr.1 with version := req.version, keepAlive := false, prepared := true }
    match env.writeResult with
    | Except.error e => (SessionResult.failed e, hr.2)
    | Except.ok _ => (SessionResult.done res, hr.2 ++ [Event.wroteBytes res])

/-- What the listener observes of one spawned session: `co_spawn` hands any
exception leaving `run_session` to the completion callback, which calls
`log_exception` (cancellations.cpp, lines 256–263); a normal completion needs
no action. -/
def session_completion (env : SessionEnv) : List Event :=
  match run_session env with
  | (SessionResult.failed e, evs) => evs ++ [Event.logError e]
  | (SessionResult.done _, evs) => evs

/-- The accept loop of `listener` (cancellations.cpp, lines 245–264) over a
finite stock of incoming connections: accept, spawn the session with the
logging completion callback, continue with the next connection regardless of
how the session ends.  Returns how many connections were accepted and the
combined event trace. -/
def listener_run : List SessionEnv → Nat × List Event
  | [] => (0, [])
  | env :: rest =>
    let r := listener_run rest
    (r.1 + 1, session_completion env ++ r.2)

/-- One session of 1_sync.cpp at its operation boundaries: the outcome of the
blocking `http::read`, the backend outcomes (connect and execute on the
`any_connection`), and the outcome of the blocking `http::write`. -/
structure SyncEnv where
  readResult : Except Exn Request
  backend : Backend
  writeResult : Except Exn Unit

/-- `run_session` of 1_sync.cpp (lines 52–74): read, `parse_id` — which calls
`.value()` and so throws `bad_optional_access` on a malformed target —
connect, execute, take `rows().at(0).at(0)` (throwing `out_of_range` when the
result is empty: this variant has no 404 path), convert with `as_string`,
build the 200 response and write it.  There is no try/catch anywhere on this
path: every failure escapes the function. -/
def run_session_sync (env : SyncEnv) : Except Exn Response :=
  match env.readResult with
  | Except.error e => Except.error e
  | Except.ok req =>
    match try_parse_id req.target with
    | none => Except.error Exn.badOptionalAccess
    | some i =>
      match env.backend.acquire with
      | Except.error e => Except.error e
      | Except.ok _ =>
        match env.backend.query (i : Int) with
        | Except.error e => Except.error e
        | Except.ok rows =>
          match rows with
          | [] => Except.error Exn.indexOutOfRange
          | row :: _ =>
            match row with
            | [] => Except.error Exn.indexOutOfRange
            | f :: _ =>
              match as_string f with
              | Except.error e => Except.error e
              | Except.ok name =>
                match env.writeResult with
                | Except.error e => Except.error e
                | Except.ok _ =>
                  Except.ok { status := 200, body := name, version := req.version,
                              keepAlive := false, prepared := true }

/-- The accept loop of `main` in 1_sync.cpp (lines 96–104) over a finite
stock of incoming connections: accept, run the session inline.  No handler
surrounds the call, so the first exception a session throws leaves the loop
(and `main`).  Returns how many connections were accepted and the escaping
exception, if any; connections behind a crash are never accepted. -/
def main_sync_loop : List SyncEnv → Nat × Option Exn
  | [] => (0, none)
  | env :: rest =>
    match run_session_sync env with
    | Except.ok _ =>
      let r := main_sync_loop rest
      (r.1 + 1, r.2)
    | Except.error e => (1, some e)

/-- A handler invocation queued on the io_context of `main`
(cancellations.cpp): the completion of the listener's `async_accept`, which
starts session `sid`; an intermediate resumption of session `sid` at one of
its suspension points; the final resumption, which runs session `sid` to its
natural completion; or the `signal_set` handler, which calls `ctx.stop()`. -/
inductive Work
  | accept (sid : Nat)
  | step (sid : Nat)
  | finish (sid : Nat)
  | signal
  deriving DecidableEq

/-- `ctx.run()` over a queue of handler invocations, with the shutdown wiring
of `main` (cancellations.cpp, lines 306–314) modelled at the io_context
boundary: handlers run in order until the signal handler runs, and
`ctx.stop()` makes `run()` return as soon as possible — handlers still queued
behind it are never invoked (asio's documented stop semantics).  The result
is the list of handler invocations that actually ran. -/
def ctx_run : List Work → List Work
  | [] => []
  | w :: rest => if w = Work.signal then [Work.signal] else w :: ctx_run rest

/-- A well-formed request for employee 42. -/
def req42 : Request := { method := Verb.get, target := "/employee/42".toList, version := 11 }

/-- A well-formed request for employee 7. -/
def req7 : Request := { method := Verb.get, target := "/employee/7".toList, version := 11 }

/-- A GET request whose target carries a minus sign after the route. -/
def reqNeg : Request := { method := Verb.get, target := "/employee/-5".toList, version := 11 }

/-- A request whose target matches neither route shape. -/
def reqBadTarget : Request := { method := Verb.get, target := "/abc".toList, version := 11 }

/-- A request for the digits-only route of the early variants. -/
def req5 : Request := { method := Verb.get, target := "/5".toList, version := 11 }

/-- A healthy backend whose queries all come back empty. -/
def backendEmpty : Backend :=
  { acquire := Except.ok (), query := fun _ => Except.ok [] }

/-- A healthy backend holding the row for employee 42. -/
def backendSmith : Backend :=
  { acquire := Except.ok (),
    query := fun i => if i = 42 then Except.ok [[SqlField.str "Smith"]] else Except.ok [] }

/-- A healthy backend whose row for employee 7 has a NULL last_name. -/
def backendNull : Backend :=
  { acquire := Except.ok (),
    query := fun i => if i = 7 then Except.ok [[SqlField.null]] else Except.ok [] }

/-- A healthy backend holding the row for id 5 of the early variants. -/
def backendFive : Backend :=
  { acquire := Except.ok (),
    query := fun i => if i = 5 then Except.ok [[SqlField.str "Chandra"]] else Except.ok [] }

/-- A session whose handle-stage scope fires while the query is suspended:
the read and the write themselves complete inside their own scopes. -/
def envHandleTimeout : SessionEnv :=
  { readResult := Except.ok req42, backend := backendEmpty,
    handleCancel := HandleCancel.duringQuery, writeResult := Except.ok () }

/-- A session that dies while reading the request (malformed bytes on the
wire). -/
def envReadFail : SessionEnv :=
  { readResult := Except.error Exn.protocolError, backend := backendEmpty,
    handleCancel := HandleCancel.noFire, writeResult := Except.ok () }

/-- A synchronous session holding a request that fails `parse_id`. -/
def badSyncEnv : SyncEnv :=
  { readResult := Except.ok reqBadTarget, backend := backendFive,
    writeResult := Except.ok () }

/-- A synchronous session that would complete normally. -/
def goodSyncEnv : SyncEnv :=
  { readResult := Except.ok req5, backend := backendFive,
    writeResult := Except.ok () }

/-- An io_context queue in which session 0 is accepted and still has work
pending when the shutdown signal arrives. -/
def schedule0 : List Work :=
  [Work.accept 0, Work.step 0, Work.signal, Work.step 0, Work.finish 0]

/-- A request with the right target shape but the wrong method. -/
def reqPost : Request :=
  { method := Verb.post, target := "/employee/42".toList, version := 11 }

/-- A backend whose pool cannot produce a connection in time. -/
def backendDown : Backend :=
  { acquire := Except.error Exn.poolTimeout, query := fun _ => Except.error Exn.backendError }

/-- Outcome of the composed `http::async_write` under its `cancel_after`
scope (cancellations.cpp, line 218), at the socket boundary: the composed
operation moves the serialized response onto the socket with repeated
`async_write_some` calls, so it either runs to completion, or — when the
scope fires or an I/O error occurs mid-transfer — finishes with an error
while the bytes already accepted by the socket stay on the wire:
`bytesOnWire` of them, zero when the operation is interrupted before its
first byte, and always fewer than the whole message (an error means the
transfer did not finish). -/
inductive WriteOutcome
  | completes
  | interrupted (bytesOnWire : Nat) (e : Exn)
  deriving DecidableEq

/-- What a session leaves on the client-facing byte stream: nothing, a proper
non-empty prefix — `bytes` bytes — of one serialized response, or one whole
response. -/
inductive StreamState
  | empty
  | partOf (r : Response) (bytes : Nat)
  | whole (r : Response)
  deriving DecidableEq

/-- The composed write observed on the byte stream: on completion the whole
response is on the stream; interrupted before the first byte it leaves the
stream untouched; interrupted after `k + 1` bytes it leaves that proper
prefix of the response behind while the operation itself finishes with the
error. -/
def async_write_stream (r : Response) : WriteOutcome → StreamState × Except Exn Unit
  | WriteOutcome.completes => (StreamState.whole r, Except.ok ())
  | WriteOutcome.interrupted 0 e => (StreamState.empty, Except.error e)
  | WriteOutcome.interrupted (k + 1) e => (StreamState.partOf r (k + 1), Except.error e)

/-- One session of cancellations.cpp with its write stage refined to the byte
level: the same read, backend and handle-cancellation boundaries as
`SessionEnv`, with the write given as a `WriteOutcome` instead of a mere
success/failure. -/
structure SessionEnvW where
  readResult : Except Exn Request
  backend : Backend
  handleCancel : HandleCancel
  writeOutcome : WriteOutcome

/-- The write-refined session collapsed back to the coarse `SessionEnv`: the
write outcome keeps only whether the operation failed. -/
def SessionEnvW.toEnv (env : SessionEnvW) : SessionEnv :=
  { readResult := env.readResult, backend := env.backend,
    handleCancel := env.handleCancel,
    writeResult :=
      match env.writeOutcome with
      | WriteOutcome.completes => Except.ok ()
      | WriteOutcome.interrupted _ e => Except.error e }

/-- `run_session` (cancellations.cpp, lines 166–219) observed at the byte
stream: read one request (a failure aborts the session with nothing on the
stream), obtain the handler's response from the co_spawned `handle_request`,
assemble it fully — version, keep-alive, payload — and only then hand the
message to the composed write, which puts its bytes on the stream front to
back.  The result pairs how the session ends with what is left on the
stream. -/
def run_session_wire (env : SessionEnvW) : SessionResult × StreamState :=
  match env.readResult with
  | Except.error e => (SessionResult.failed e, StreamState.empty)
  | Except.ok req =>
    let hr := handle_request (env.backend.withCancel env.handleCancel) req
    let res := { hr.1 with version := req.version, keepAlive := false, prepared := true }
    match async_write_stream res env.writeOutcome with
    | (st, Except.error e) => (SessionResult.failed e, st)
    | (st, Except.ok _) => (SessionResult.done res, st)

/-- The fully assembled response for employee 42 as the write stage sends
it. -/
def resSmith : Response :=
  { status := 200, body := "Smith", version := 11, keepAlive := false, prepared := true }

/-- A session whose write-stage scope fires after five bytes of the response
have been accepted by the socket. -/
def envPartialWrite : SessionEnvW :=
  { readResult := Except.ok req42, backend := backendSmith,
    handleCancel := HandleCancel.noFire,
    writeOutcome := WriteOutcome.interrupted 5 Exn.operationAborted }

/-- A byte-level session that dies while reading the request. -/
def envWireReadFail : SessionEnvW :=
  { readResult := Except.error Exn.protocolError, backend := backendSmith,
    handleCancel := HandleCancel.noFire, writeOutcome := WriteOutcome.completes }

/-- A byte-level session that completes normally. -/
def envWireDone : SessionEnvW :=
  { readResult := Except.ok req42, backend := backendSmith,
    handleCancel := HandleCancel.noFire, writeOutcome := WriteOutcome.completes }

theorem isPrefixOf_append_self : ∀ (l t : List Char), l.isPrefixOf (l ++ t) = true := by
  intro l t
  induction l with
  | nil => simp [List.isPrefixOf]
  | cons a as ih => simp [List.isPrefixOf, ih]

theorem eq_append_of_isPrefixOf : ∀ {l t : List Char}, l.isPrefixOf t = true → ∃ s, t = l ++ s := by
  intro l
  induction l with
  | nil => intro t _; exact ⟨t, rfl⟩
  | cons a as ih =>
    intro t h
    cases t with
    | nil => simp [List.isPrefixOf] at h
    | cons b bs =>
      rw [List.isPrefixOf, Bool.and_eq_true, beq_iff_eq] at h
      obtain ⟨s, hs⟩ := ih h.2
      exact ⟨s, by simp [h.1, hs]⟩

theorem takeWhile_eq_self_of_all {p : Char → Bool} :
    ∀ {l : List Char}, (∀ c ∈ l, p c = true) → l.takeWhile p = l := by
  intro l
  induction l with
  | nil => intro _; rfl
  | cons a as ih =>
    intro h
    rw [List.takeWhile_cons_of_pos (h a (List.mem_cons_self a as))]
    rw [ih (fun c hc => h c (List.mem_cons_of_mem a hc))]

theorem takeWhile_eq_self_of_length {p : Char → Bool} :
    ∀ {l : List Char}, (l.takeWhile p).length = l.length → l.takeWhile p = l := by
  intro l
  induction l with
  | nil => intro _; rfl
  | cons a as ih =>
    intro h
    by_cases hp : p a = true
    · rw [List.takeWhile_cons_of_pos hp] at h ⊢
      simp only [List.length_cons, Nat.succ.injEq] at h
      rw [ih h]
    · rw [List.takeWhile_cons_of_neg hp] at h
      simp at h

theorem digitChar_isDigit {m : Nat} (h : m < 10) : (Nat.digitChar m).isDigit = true := by
  interval_cases m <;> decide

theorem digitChar_toNat {m : Nat} (h : m < 10) : (Nat.digitChar m).toNat = 48 + m := by
  interval_cases m <;> decide

theorem digitsToNat_append (l : List Char) (c : Char) :
    digitsToNat (l ++ [c]) = digitsToNat l * 10 + (c.toNat - 48) := by
  simp [digitsToNat, List.foldl_append]

theorem natDecimalAux_spec :
    ∀ (fuel n : Nat), n < fuel →
      natDecimalAux fuel n ≠ [] ∧ (∀ c ∈ natDecimalAux fuel n, c.isDigit = true) ∧
        digitsToNat (natDecimalAux fuel n) = n := by
  intro fuel
  induction fuel with
  | zero => intro n h; omega
  | succ f ih =>
    intro n h
    by_cases h10 : n < 10
    · refine ⟨by simp [natDecimalAux, h10], ?_, ?_⟩
      · intro c hc
        simp only [natDecimalAux, if_pos h10, List.mem_singleton] at hc
        rw [hc]; exact digitChar_isDigit h10
      · simp only [natDecimalAux, if_pos h10, digitsToNat, List.foldl_cons, List.foldl_nil]
        rw [digitChar_toNat h10]; omega
    · have hdiv : n / 10 < f := by omega
      obtain ⟨h1, h2, h3⟩ := ih (n / 10) hdiv
      simp only [natDecimalAux, if_neg h10]
      refine ⟨by simp, ?_, ?_⟩
      · intro c hc
        rcases List.mem_append.mp hc with hc | hc
        · exact h2 c hc
        · rw [List.mem_singleton.mp hc]
          exact digitChar_isDigit (Nat.mod_lt n (by omega))
      · rw [digitsToNat_append, h3, digitChar_toNat (Nat.mod_lt n (by omega))]
        omega

theorem natDecimal_ne_nil (n : Nat) : natDecimal n ≠ [] :=
  (natDecimalAux_spec (n + 1) n (Nat.lt_succ_self n)).1

theorem natDecimal_all_digit (n : Nat) : ∀ c ∈ natDecimal n, c.isDigit = true :=
  (natDecimalAux_spec (n + 1) n (Nat.lt_succ_self n)).2.1

theorem digitsToNat_natDecimal (n : Nat) : digitsToNat (natDecimal n) = n :=
  (natDecimalAux_spec (n + 1) n (Nat.lt_succ_self n)).2.2

theorem fromCharsScan_eq_some {neg : Bool} {cs : List Char} {v : Int} {k : Nat}
    (h : fromCharsScan neg cs = some (v, k)) :
    cs.takeWhile Char.isDigit ≠ [] ∧
      v = (if neg then -((digitsToNat (cs.takeWhile Char.isDigit) : Nat) : Int)
           else ((digitsToNat (cs.takeWhile Char.isDigit) : Nat) : Int)) ∧
      k = (if neg then 1 else 0) + (cs.takeWhile Char.isDigit).length ∧
      int64Min ≤ v ∧ v ≤ int64Max := by
  simp only [fromCharsScan] at h
  by_cases hnil : cs.takeWhile Char.isDigit = []
  · rw [if_pos hnil] at h; exact absurd h (by simp)
  · rw [if_neg hnil] at h
    by_cases hb : int64Min ≤ (if neg then -((digitsToNat (cs.takeWhile Char.isDigit) : Nat) : Int)
        else ((digitsToNat (cs.takeWhile Char.isDigit) : Nat) : Int)) ∧
        (if neg then -((digitsToNat (cs.takeWhile Char.isDigit) : Nat) : Int)
        else ((digitsToNat (cs.takeWhile Char.isDigit) : Nat) : Int)) ≤ int64Max
    · rw [if_pos hb] at h
      obtain ⟨hv, hk⟩ := Prod.mk.injEq .. ▸ (Option.some.injEq .. ▸ h :)
      exact ⟨hnil, hv.symm, hk.symm, hv ▸ hb.1, hv ▸ hb.2⟩
    · rw [if_neg hb] at h; exact absurd h (by simp)

theorem int64Min_nonpos : int64Min ≤ 0 := by decide

theorem natCast_le_int64Max_of {n : Nat} (h : (n : Int) ≤ int64Max) :
    int64Min ≤ (n : Int) ∧ (n : Int) ≤ int64Max :=
  ⟨le_trans int64Min_nonpos (Int.natCast_nonneg n), h⟩

theorem parse_request_route_digits (n : Nat) (ver : Nat) (h : (n : Int) ≤ int64Max) :
    parse_request { method := Verb.get, target := employeeRoute ++ natDecimal n, version := ver } =
      some (n : Int) := by
  have hne := natDecimal_ne_nil n
  have hdig := natDecimal_all_digit n
  have htw : (natDecimal n).takeWhile Char.isDigit = natDecimal n := takeWhile_eq_self_of_all hdig
  have hhead : ¬ ((natDecimal n).head? = some '-') := by
    intro hh
    exact absurd (hdig '-' (List.mem_of_mem_head? (by rw [hh]; exact rfl))) (by decide)
  rw [parse_request]
  simp only [if_pos rfl, isPrefixOf_append_self, if_pos]
  rw [List.drop_left]
  rw [from_chars_i64, if_neg hhead]
  simp only [fromCharsScan, htw, if_neg hne, digitsToNat_natDecimal, Bool.false_eq_true,
    if_false]
  rw [if_pos (natCast_le_int64Max_of h)]
  simp

theorem int64Min_val : int64Min = -(9223372036854775808 : Int) := by decide

theorem int64Max_val : int64Max = (9223372036854775807 : Int) := by decide

theorem parse_request_route_minus (n : Nat) (ver : Nat) (h : (n : Int) ≤ -int64Min) :
    parse_request
        { method := Verb.get, target := employeeRoute ++ '-' :: natDecimal n, version := ver } =
      some (-(n : Int)) := by
  have hne := natDecimal_ne_nil n
  have hdig := natDecimal_all_digit n
  have htw : (natDecimal n).takeWhile Char.isDigit = natDecimal n := takeWhile_eq_self_of_all hdig
  have hb : int64Min ≤ -(n : Int) ∧ -(n : Int) ≤ int64Max := by
    rw [int64Min_val] at h
    rw [int64Min_val, int64Max_val]
    constructor <;> omega
  rw [parse_request]
  simp only [if_pos rfl, isPrefixOf_append_self, if_pos]
  rw [List.drop_left, from_chars_i64]
  simp only [List.head?_cons, List.tail_cons, if_true]
  simp only [fromCharsScan, htw, if_neg hne, digitsToNat_natDecimal, eq_self_iff_true, if_true]
  rw [if_pos hb]
  simp
  omega

theorem parse_request_some_shape {req : Request} {v : Int} (h : parse_request req = some v) :
    req.method = Verb.get ∧ int64Min ≤ v ∧ v ≤ int64Max ∧
      ∃ ds, ds ≠ [] ∧ (∀ c ∈ ds, c.isDigit = true) ∧
        ((req.target = employeeRoute ++ ds ∧ v = ((digitsToNat ds : Nat) : Int)) ∨
         (req.target = employeeRoute ++ '-' :: ds ∧ v = -((digitsToNat ds : Nat) : Int))) := by
  by_cases hm : req.method = Verb.get
  case neg => rw [parse_request, if_neg hm] at h; exact absurd h (by simp)
  rw [parse_request, if_pos hm] at h
  by_cases hp : employeeRoute.isPrefixOf req.target = true
  case neg => rw [if_neg hp] at h; exact absurd h (by simp)
  rw [if_pos hp] at h
  obtain ⟨s, hs⟩ := eq_append_of_isPrefixOf hp
  rw [hs, List.drop_left] at h
  rcases hfc : from_chars_i64 s with _ | ⟨v', k⟩
  · rw [hfc] at h; exact absurd h (by simp)
  rw [hfc] at h
  have h2 : (if k = s.length then some v' else none) = some v := h
  by_cases hk : k = s.length
  case neg => rw [if_neg hk] at h2; exact absurd h2 (by simp)
  rw [if_pos hk] at h2
  have hv : v' = v := by simpa using h2
  subst hv
  rw [from_chars_i64] at hfc
  by_cases hh : s.head? = some '-'
  · rw [if_pos hh] at hfc
    cases s with
    | nil => simp at hh
    | cons c t =>
      have hc : c = '-' := by simpa using hh
      subst hc
      simp only [List.tail_cons] at hfc
      obtain ⟨hne, hval, hlen, hlo, hhi⟩ := fromCharsScan_eq_some hfc
      simp only [if_true] at hval hlen
      have hlt : (t.takeWhile Char.isDigit).length = t.length := by
        simp only [List.length_cons] at hk
        omega
      have hds : t.takeWhile Char.isDigit = t := takeWhile_eq_self_of_length hlt
      refine ⟨hm, hlo, hhi, t, ?_, ?_, Or.inr ⟨by rw [hs], ?_⟩⟩
      · rw [← hds]; exact hne
      · intro c hc; exact List.mem_takeWhile_imp (hds ▸ hc)
      · rw [hval, hds]
  · rw [if_neg hh] at hfc
    obtain ⟨hne, hval, hlen, hlo, hhi⟩ := fromCharsScan_eq_some hfc
    simp only [Bool.false_eq_true, if_false] at hval hlen
    have hlt : (s.takeWhile Char.isDigit).length = s.length := by omega
    have hds : s.takeWhile Char.isDigit = s := takeWhile_eq_self_of_length hlt
    refine ⟨hm, hlo, hhi, s, ?_, ?_, Or.inl ⟨hs, ?_⟩⟩
    · rw [← hds]; exact hne
    · intro c hc; exact List.mem_takeWhile_imp (hds ▸ hc)
    · rw [hval, hds]

theorem handle_request_parse_fail {b : Backend} {req : Request}
    (h : parse_request req = none) :
    handle_request b req = ({ defaultResponse with status := 400 }, []) := by
  simp [handle_request, handle_request_try, h]

theorem handle_request_acquire_fail {b : Backend} {req : Request} {i : Int} {e : Exn}
    (hp : parse_request req = some i) (ha : b.acquire = Except.error e) :
    handle_request b req =
      ({ defaultResponse with status := 500 }, [Event.acquire, Event.logError e]) := by
  simp [handle_request, handle_request_try, hp, ha]

theorem handle_request_query_fail {b : Backend} {req : Request} {i : Int} {e : Exn}
    (hp : parse_request req = some i) (ha : b.acquire = Except.ok ())
    (hq : b.query i = Except.error e) :
    handle_request b req =
      ({ defaultResponse with status := 500 },
        [Event.acquire, Event.acquired, Event.query, Event.release, Event.logError e]) := by
  simp [handle_request, handle_request_try, hp, ha, hq]

theorem handle_request_empty_result {b : Backend} {req : Request} {i : Int}
    (hp : parse_request req = some i) (ha : b.acquire = Except.ok ())
    (hq : b.query i = Except.ok []) :
    handle_request b req =
      ({ defaultResponse with status := 404 },
        [Event.acquire, Event.acquired, Event.query, Event.release]) := by
  simp [handle_request, handle_request_try, hp, ha, hq]

theorem handle_request_row_str {b : Backend} {req : Request} {i : Int} {s : String}
    {rest : List SqlField} {rrest : List (List SqlField)}
    (hp : parse_request req = some i) (ha : b.acquire = Except.ok ())
    (hq : b.query i = Except.ok ((SqlField.str s :: rest) :: rrest)) :
    handle_request b req =
      ({ defaultResponse with body := s },
        [Event.acquire, Event.acquired, Event.query, Event.release]) := by
  simp [handle_request, handle_request_try, hp, ha, hq, as_string]

theorem handle_request_row_not_str {b : Backend} {req : Request} {i : Int} {f : SqlField}
    {rest : List SqlField} {rrest : List (List SqlField)}
    (hp : parse_request req = some i) (ha : b.acquire = Except.ok ())
    (hq : b.query i = Except.ok ((f :: rest) :: rrest)) (hf : ∀ s, f ≠ SqlField.str s) :
    handle_request b req =
      ({ defaultResponse with status := 500 },
        [Event.acquire, Event.acquired, Event.query, Event.release,
          Event.logError Exn.badFieldAccess]) := by
  cases f with
  | str s => exact absurd rfl (hf s)
  | null => simp [handle_request, handle_request_try, hp, ha, hq, as_string]
  | num m => simp [handle_request, handle_request_try, hp, ha, hq, as_string]

theorem handle_request_shape (b : Backend) (req : Request) :
    handle_request b req = ({ defaultResponse with status := 400 }, []) ∨
    (∃ e, handle_request b req =
      ({ defaultResponse with status := 500 }, [Event.acquire, Event.logError e])) ∨
    (∃ e, handle_request b req =
      ({ defaultResponse with status := 500 },
        [Event.acquire, Event.acquired, Event.query, Event.release, Event.logError e])) ∨
    handle_request b req =
      ({ defaultResponse with status := 404 },
        [Event.acquire, Event.acquired, Event.query, Event.release]) ∨
    (∃ s, handle_request b req =
      ({ defaultResponse with body := s },
        [Event.acquire, Event.acquired, Event.query, Event.release])) := by
  rcases hp : parse_request req with _ | i
  · exact Or.inl (handle_request_parse_fail hp)
  rcases ha : b.acquire with e | u
  · exact Or.inr (Or.inl ⟨e, handle_request_acquire_fail hp ha⟩)
  cases u
  rcases hq : b.query i with e | rows
  · exact Or.inr (Or.inr (Or.inl ⟨e, handle_request_query_fail hp ha hq⟩))
  rcases rows with _ | ⟨row, rrest⟩
  · exact Or.inr (Or.inr (Or.inr (Or.inl (handle_request_empty_result hp ha hq))))
  rcases row with _ | ⟨f, rest⟩
  · refine Or.inr (Or.inr (Or.inl ⟨Exn.indexOutOfRange, ?_⟩))
    simp [handle_request, handle_request_try, hp, ha, hq]
  cases f with
  | str s =>
    exact Or.inr (Or.inr (Or.inr (Or.inr ⟨s, handle_request_row_str hp ha hq⟩)))
  | null =>
    exact Or.inr (Or.inr (Or.inl ⟨Exn.badFieldAccess,
      handle_request_row_not_str hp ha hq (fun s h => by cases h)⟩))
  | num m =>
    exact Or.inr (Or.inr (Or.inl ⟨Exn.badFieldAccess,
      handle_request_row_not_str hp ha hq (fun s h => by cases h)⟩))

theorem handle_request_counts (b : Backend) (req : Request) :
    (handle_request b req).2.countP isRelease = (handle_request b req).2.countP isAcquired ∧
      (handle_request b req).2.countP isRelease ≤ 1 ∧
      (handle_request b req).2.countP isQuery ≤ 1 ∧
      (handle_request b req).2.countP isWrite = 0 := by
  rcases handle_request_shape b req with h | ⟨e, h⟩ | ⟨e, h⟩ | h | ⟨s, h⟩ <;> rw [h] <;>
    simp [List.countP_cons, isRelease, isAcquired, isQuery, isWrite]

theorem handle_request_status_mem (b : Backend) (req : Request) :
    (handle_request b req).1.status = 200 ∨ (handle_request b req).1.status = 400 ∨
      (handle_request b req).1.status = 404 ∨ (handle_request b req).1.status = 500 := by
  rcases handle_request_shape b req with h | ⟨e, h⟩ | ⟨e, h⟩ | h | ⟨s, h⟩ <;> rw [h] <;>
    simp [defaultResponse]

theorem run_session_read_fail {env : SessionEnv} {e : Exn} (h : env.readResult = Except.error e) :
    run_session env = (SessionResult.failed e, []) := by
  simp [run_session, h]

theorem run_session_write_ok {env : SessionEnv} {req : Request}
    (h : env.readResult = Except.ok req) (hw : env.writeResult = Except.ok ()) :
    run_session env =
      (SessionResult.done
          { (handle_request (env.backend.withCancel env.handleCancel) req).1 with
              version := req.version, keepAlive := false, prepared := true },
        (handle_request (env.backend.withCancel env.handleCancel) req).2 ++
          [Event.wroteBytes
            { (handle_request (env.backend.withCancel env.handleCancel) req).1 with
                version := req.version, keepAlive := false, prepared := true }]) := by
  simp [run_session, h, hw]

theorem run_session_write_fail {env : SessionEnv} {req : Request} {e : Exn}
    (h : env.readResult = Except.ok req) (hw : env.writeResult = Except.error e) :
    run_session env =
      (SessionResult.failed e,
        (handle_request (env.backend.withCancel env.handleCancel) req).2) := by
  simp [run_session, h, hw]

theorem run_session_release_acquired (env : SessionEnv) :
    (run_session env).2.countP isRelease = (run_session env).2.countP isAcquired := by
  rcases hr : env.readResult with e | req
  · rw [run_session_read_fail hr]; rfl
  · rcases hw : env.writeResult with e | u
    · rw [run_session_write_fail hr hw]
      exact (handle_request_counts _ _).1
    · cases u
      rw [run_session_write_ok hr hw]
      simp only [List.countP_append]
      rw [(handle_request_counts (env.backend.withCancel env.handleCancel) req).1]
      simp [List.countP_cons, isRelease, isAcquired, isWrite]

theorem listener_run_accepts_all (envs : List SessionEnv) :
    (listener_run envs).1 = envs.length := by
  induction envs with
  | nil => rfl
  | cons env rest ih => simp [listener_run, ih]

theorem session_completion_logs {env : SessionEnv} {e : Exn}
    (h : (run_session env).1 = SessionResult.failed e) :
    Event.logError e ∈ session_completion env := by
  rcases hrs : run_session env with ⟨res, evs⟩
  rw [hrs] at h
  simp only at h
  rw [session_completion, hrs, h]
  simp

theorem listener_run_logs {envs : List SessionEnv} {env : SessionEnv} {e : Exn}
    (hm : env ∈ envs) (h : (run_session env).1 = SessionResult.failed e) :
    Event.logError e ∈ (listener_run envs).2 := by
  induction envs with
  | nil => simp at hm
  | cons env0 rest ih =>
    rcases List.mem_cons.mp hm with hm | hm
    · subst hm
      exact List.mem_append.mpr (Or.inl (session_completion_logs h))
    · exact List.mem_append.mpr (Or.inr (ih hm))

theorem main_sync_loop_crash {env : SyncEnv} {e : Exn}
    (h : run_session_sync env = Except.error e) (rest : List SyncEnv) :
    main_sync_loop (env :: rest) = (1, some e) := by
  simp [main_sync_loop, h]

theorem ctx_run_no_signal {xs : List Work} (h : Work.signal ∉ xs) : ctx_run xs = xs := by
  induction xs with
  | nil => rfl
  | cons w rest ih =>
    have hw : ¬ w = Work.signal := fun hc => h (hc ▸ List.mem_cons_self w rest)
    rw [ctx_run, if_neg hw, ih (fun hc => h (List.mem_cons_of_mem w hc))]

theorem ctx_run_signal_absorb (xs ys : List Work) :
    ctx_run (xs ++ Work.signal :: ys) = ctx_run (xs ++ [Work.signal]) := by
  induction xs with
  | nil => simp [ctx_run]
  | cons w rest ih =>
    by_cases hw : w = Work.signal
    · simp [ctx_run, hw]
    · simp only [List.cons_append, ctx_run, if_neg hw]
      exact congrArg (List.cons w) ih

theorem ctx_run_ran_queued {xs : List Work} {w : Work} (h : w ∈ ctx_run xs) : w ∈ xs := by
  induction xs with
  | nil => simp [ctx_run] at h
  | cons w0 rest ih =>
    by_cases hw : w0 = Work.signal
    · rw [ctx_run, if_pos hw] at h
      have hww : w = w0 := (List.mem_singleton.mp h).trans hw.symm
      exact hww ▸ List.mem_cons_self w0 rest
    · rw [ctx_run, if_neg hw] at h
      rcases List.mem_cons.mp h with h | h
      · exact h ▸ List.mem_cons_self w0 rest
      · exact List.mem_cons_of_mem w0 (ih h)

theorem ctx_run_abandons {xs ys : List Work} {sid : Nat} (h : Work.finish sid ∉ xs) :
    Work.finish sid ∉ ctx_run (xs ++ Work.signal :: ys) := by
  intro hmem
  rw [ctx_run_signal_absorb] at hmem
  rcases List.mem_append.mp (ctx_run_ran_queued hmem) with hc | hc
  · exact h hc
  · exact absurd (List.mem_singleton.mp hc) (by simp)

/-- C1 (counterexample): a session whose handle-stage scope fires during the
query does not abort without writing: the handler converts the cancellation
into a 500 response, the session completes normally, and exactly one full
response is written to the client. -/
theorem claim_C1_counterexample :
    envHandleTimeout.handleCancel ≠ HandleCancel.noFire ∧
      (run_session envHandleTimeout).1 =
        SessionResult.done
          { status := 500, body := "", version := 11, keepAlive := false, prepared := true } ∧
      (run_session envHandleTimeout).2.countP isWrite = 1 := by
  decide

/-- C1 (amended): when the handle-stage scope fires before the handler
returns, the cancelled operation's `operation_aborted` failure is caught and
logged by the handler, any connection acquired is released exactly once
(releases equal successful acquires), and the session — far from aborting —
carries a 500 response to the write stage: if the write completes, the 500
response is written; only a write failure makes the session abort, and then
nothing is written. -/
theorem claim_C1_amended (env : SessionEnv) (req : Request) (i : Int)
    (hread : env.readResult = Except.ok req)
    (hp : parse_request req = some i)
    (hc : env.handleCancel ≠ HandleCancel.noFire)
    (hcoh : env.handleCancel = HandleCancel.duringQuery → env.backend.acquire = Except.ok ()) :
    Event.logError Exn.operationAborted ∈ (run_session env).2 ∧
      (run_session env).2.countP isRelease = (run_session env).2.countP isAcquired ∧
      (env.writeResult = Except.ok () →
        ∃ r, (run_session env).1 = SessionResult.done r ∧ r.status = 500 ∧
          Event.wroteBytes r ∈ (run_session env).2) ∧
      (∀ e, env.writeResult = Except.error e →
        (run_session env).1 = SessionResult.failed e ∧
          ∀ r, Event.wroteBytes r ∉ (run_session env).2) := by
  have hhr : ∃ evs, handle_request (env.backend.withCancel env.handleCancel) req =
      ({ defaultResponse with status := 500 }, evs) ∧
      Event.logError Exn.operationAborted ∈ evs ∧ (∀ r, Event.wroteBytes r ∉ evs) := by
    cases hcan : env.handleCancel with
    | noFire => exact absurd hcan hc
    | duringAcquire =>
      refine ⟨[Event.acquire, Event.logError Exn.operationAborted],
        handle_request_acquire_fail hp rfl, by simp, by simp⟩
    | duringQuery =>
      have ha : (env.backend.withCancel HandleCancel.duringQuery).acquire = Except.ok () :=
        hcoh hcan
      refine ⟨[Event.acquire, Event.acquired, Event.query, Event.release,
          Event.logError Exn.operationAborted],
        handle_request_query_fail hp ha rfl, by simp, by simp⟩
  obtain ⟨evs, hhr, hlog, hnw⟩ := hhr
  refine ⟨?_, run_session_release_acquired env, ?_, ?_⟩
  · rcases hw : env.writeResult with e | u
    · rw [run_session_write_fail hread hw, hhr]
      exact hlog
    · cases u
      rw [run_session_write_ok hread hw, hhr]
      exact List.mem_append.mpr (Or.inl hlog)
  · intro hw
    rw [run_session_write_ok hread hw, hhr]
    refine ⟨_, rfl, rfl, ?_⟩
    exact List.mem_append.mpr (Or.inr (List.mem_singleton.mpr rfl))
  · intro e hw
    rw [run_session_write_fail hread hw, hhr]
    exact ⟨rfl, hnw⟩

/-- C1 (witness): the amended statement evaluated on the concrete
handle-timeout session. -/
theorem claim_C1_witness :
    Event.logError Exn.operationAborted ∈ (run_session envHandleTimeout).2 ∧
      (run_session envHandleTimeout).2.countP isRelease =
        (run_session envHandleTimeout).2.countP isAcquired ∧
      (envHandleTimeout.writeResult = Except.ok () →
        ∃ r, (run_session envHandleTimeout).1 = SessionResult.done r ∧ r.status = 500 ∧
          Event.wroteBytes r ∈ (run_session envHandleTimeout).2) ∧
      (∀ e, envHandleTimeout.writeResult = Except.error e →
        (run_session envHandleTimeout).1 = SessionResult.failed e ∧
          ∀ r, Event.wroteBytes r ∉ (run_session envHandleTimeout).2) :=
  claim_C1_amended envHandleTimeout req42 42 rfl (by decide) (by decide) (fun _ => rfl)

/-- C2 (counterexample): `parse_request` does not reject every target other
than the route followed by digits, and the parsed identifier is not always
non-negative: the GET target made of the route followed by "-5" parses to
the identifier -5. -/
theorem claim_C2_counterexample :
    parse_request reqNeg = some (-5) ∧ (-5 : Int) < 0 := by
  decide

/-- C2 (amended): for every natural number within the int64 range, parsing a
GET request whose target is the route followed by the decimal digits of the
number yields exactly that identifier; from_chars additionally accepts one
leading minus sign, so the route followed by a minus sign and digits parses
to the corresponding negative identifier when it fits int64; conversely every
accepted target is the route followed by an optional minus sign and a
non-empty digit run whose in-range value is the result — so an empty
remainder, a stray non-digit character, a wrong route, an out-of-range value,
or a non-GET method yields the distinct no-identifier value, never a default
of zero. -/
theorem claim_C2_amended :
    (∀ n ver : Nat, (n : Int) ≤ int64Max →
      parse_request
          { method := Verb.get, target := employeeRoute ++ natDecimal n, version := ver } =
        some (n : Int)) ∧
    (∀ n ver : Nat, (n : Int) ≤ -int64Min →
      parse_request
          { method := Verb.get, target := employeeRoute ++ '-' :: natDecimal n, version := ver } =
        some (-(n : Int))) ∧
    (∀ (req : Request) (v : Int), parse_request req = some v →
      req.method = Verb.get ∧ int64Min ≤ v ∧ v ≤ int64Max ∧
        ∃ ds, ds ≠ [] ∧ (∀ c ∈ ds, c.isDigit = true) ∧
          ((req.target = employeeRoute ++ ds ∧ v = ((digitsToNat ds : Nat) : Int)) ∨
           (req.target = employeeRoute ++ '-' :: ds ∧ v = -((digitsToNat ds : Nat) : Int)))) ∧
    (∀ req : Request, req.method ≠ Verb.get → parse_request req = none) :=
  ⟨parse_request_route_digits, parse_request_route_minus,
    fun _ _ h => parse_request_some_shape h,
    fun _ h => by rw [parse_request, if_neg h]⟩

/-- C2 (witness): the amended statement evaluated at identifier 42, at the
negative identifier -5, and at a POST request. -/
theorem claim_C2_witness :
    parse_request
        { method := Verb.get, target := employeeRoute ++ natDecimal 42, version := 11 } =
      some 42 ∧
    parse_request
        { method := Verb.get, target := employeeRoute ++ '-' :: natDecimal 5, version := 11 } =
      some (-5) ∧
    parse_request reqPost = none :=
  ⟨claim_C2_amended.1 42 11 (by decide), claim_C2_amended.2.1 5 11 (by decide),
    claim_C2_amended.2.2.2 reqPost (by decide)⟩

/-- C3 (counterexample): in the 5_coroutine_timeouts.cpp variant the handler
does not return a 400-equivalent response on a parse failure: `parse_id`
throws, the catch-all converts the failure into a 500 response.  The backend
is still never touched. -/
theorem claim_C3_counterexample :
    try_parse_id reqBadTarget.target = none ∧
      (handle_request_v5 backendFive reqBadTarget).1.status = 500 ∧
      ¬ (handle_request_v5 backendFive reqBadTarget).1.status = 400 ∧
      (handle_request_v5 backendFive reqBadTarget).2.countP isAcquire = 0 ∧
      (handle_request_v5 backendFive reqBadTarget).2.countP isQuery = 0 := by
  decide

/-- C3 (amended): a request that fails identifier parsing never reaches the
backend — zero acquire and zero query operations — in every variant; the
response it gets back is a 400-equivalent in cancellations.cpp, where the
handler tests the optional, but a 500-equivalent in 5_coroutine_timeouts.cpp,
where `parse_id` throws `bad_optional_access` into the catch-all. -/
theorem claim_C3_amended :
    (∀ (b : Backend) (req : Request), parse_request req = none →
      handle_request b req = ({ defaultResponse with status := 400 }, [])) ∧
    (∀ (b : Backend) (req : Request), try_parse_id req.target = none →
      (handle_request_v5 b req).1.status = 500 ∧
        (handle_request_v5 b req).2.countP isAcquire = 0 ∧
        (handle_request_v5 b req).2.countP isQuery = 0) :=
  ⟨fun _ _ h => handle_request_parse_fail h,
    fun _ _ h => by
      simp [handle_request_v5, handle_request_v5_try, h, isAcquire, isQuery]⟩

/-- C3 (witness): the amended statement evaluated on a POST request against
the cancellations.cpp handler and on a digit-free target against the
5_coroutine_timeouts.cpp handler. -/
theorem claim_C3_witness :
    handle_request backendFive reqPost = ({ defaultResponse with status := 400 }, []) ∧
      (handle_request_v5 backendFive reqBadTarget).1.status = 500 ∧
      (handle_request_v5 backendFive reqBadTarget).2.countP isAcquire = 0 ∧
      (handle_request_v5 backendFive reqBadTarget).2.countP isQuery = 0 :=
  ⟨claim_C3_amended.1 backendFive reqPost (by decide),
    claim_C3_amended.2 backendFive reqBadTarget (by decide)⟩

/-- C4 (counterexample): a request whose query completes with a non-empty
result is not always answered 200: when the row's first field is not a string
(a NULL last_name), the handler answers 500 — neither 200 nor 404. -/
theorem claim_C4_counterexample :
    backendNull.query 7 = Except.ok [[SqlField.null]] ∧
      parse_request req7 = some 7 ∧
      (handle_request backendNull req7).1.status = 500 ∧
      ¬ (handle_request backendNull req7).1.status = 200 ∧
      ¬ (handle_request backendNull req7).1.status = 404 := by
  decide

/-- C4 (amended): for every request with a validly parsed identifier whose
query completes, the handler returns a 404-equivalent response exactly when
the result is empty; when the result is non-empty and the returned row's
first field is a string value, it returns a 200-equivalent response whose
body is that string. -/
theorem claim_C4_amended (b : Backend) (req : Request) (i : Int)
    (hp : parse_request req = some i) (ha : b.acquire = Except.ok ()) :
    (b.query i = Except.ok [] → (handle_request b req).1.status = 404) ∧
      (∀ (s : String) (rest : List SqlField) (rrest : List (List SqlField)),
        b.query i = Except.ok ((SqlField.str s :: rest) :: rrest) →
          (handle_request b req).1.status = 200 ∧ (handle_request b req).1.body = s) :=
  ⟨fun hq => by rw [handle_request_empty_result hp ha hq],
    fun s rest rrest hq => by rw [handle_request_row_str hp ha hq]; exact ⟨rfl, rfl⟩⟩

/-- C4 (witness): the amended statement evaluated on the id-42 row whose
last_name is "Smith" (response 200 with body "Smith") and on an id-42 query
with no row (response 404). -/
theorem claim_C4_witness :
    (handle_request backendSmith req42).1.status = 200 ∧
      (handle_request backendSmith req42).1.body = "Smith" ∧
      (handle_request backendEmpty req42).1.status = 404 :=
  ⟨((claim_C4_amended backendSmith req42 42 (by decide) rfl).2 "Smith" [] [] (by decide)).1,
    ((claim_C4_amended backendSmith req42 42 (by decide) rfl).2 "Smith" [] [] (by decide)).2,
    (claim_C4_amended backendEmpty req42 42 (by decide) rfl).1 rfl⟩

/-- C5: every failure of the acquire or of the query — pool timeout, pool
shut down, backend error, query timeout, cancellation — is caught at the
handler boundary, logged, and converted into a 500-equivalent response; no
such failure leaves the handler, which on every input returns a response
whose status is one of 200, 400, 404 and 500. -/
theorem claim_C5 :
    (∀ (b : Backend) (req : Request) (i : Int) (e : Exn), parse_request req = some i →
      (b.acquire = Except.error e ∨ (b.acquire = Except.ok () ∧ b.query i = Except.error e)) →
        (handle_request b req).1.status = 500 ∧
          Event.logError e ∈ (handle_request b req).2) ∧
    (∀ (b : Backend) (req : Request),
      (handle_request b req).1.status = 200 ∨ (handle_request b req).1.status = 400 ∨
        (handle_request b req).1.status = 404 ∨ (handle_request b req).1.status = 500) := by
  constructor
  · intro b req i e hp hfail
    rcases hfail with ha | ⟨ha, hq⟩
    · rw [handle_request_acquire_fail hp ha]
      exact ⟨rfl, by simp⟩
    · rw [handle_request_query_fail hp ha hq]
      exact ⟨rfl, by simp⟩
  · exact handle_request_status_mem

/-- C5 (witness): the statement evaluated on a pool that times out. -/
theorem claim_C5_witness :
    (handle_request backendDown req42).1.status = 500 ∧
      Event.logError Exn.poolTimeout ∈ (handle_request backendDown req42).2 :=
  claim_C5.1 backendDown req42 42 Exn.poolTimeout (by decide) (Or.inl rfl)

/-- C6: on every execution of the handler, the pooled connection is released
exactly as many times as it is successfully acquired — once on query success,
on query error and on cancellation, and zero times when nothing was acquired
— never more than once, with at most one query per acquisition; the same
release/acquire balance holds for the whole session pipeline. -/
theorem claim_C6 :
    (∀ (b : Backend) (req : Request),
      (handle_request b req).2.countP isRelease = (handle_request b req).2.countP isAcquired ∧
        (handle_request b req).2.countP isRelease ≤ 1 ∧
        (handle_request b req).2.countP isQuery ≤ 1) ∧
    (∀ env : SessionEnv,
      (run_session env).2.countP isRelease = (run_session env).2.countP isAcquired) :=
  ⟨fun b req =>
    ⟨(handle_request_counts b req).1, (handle_request_counts b req).2.1,
      (handle_request_counts b req).2.2.1⟩,
    run_session_release_acquired⟩

/-- The byte-level session refines the coarse one: forgetting the stream, the
two models end every session the same way. -/
theorem run_session_wire_refines (env : SessionEnvW) :
    (run_session_wire env).1 = (run_session env.toEnv).1 := by
  rcases hr : env.readResult with e | req
  · simp [run_session_wire, run_session, SessionEnvW.toEnv, hr]
  · rcases hw : env.writeOutcome with _ | ⟨k, e⟩
    · simp [run_session_wire, run_session, SessionEnvW.toEnv, hr, hw, async_write_stream]
    · rcases k with _ | k <;>
        simp [run_session_wire, run_session, SessionEnvW.toEnv, hr, hw, async_write_stream]

/-- C7 (counterexample): a write-stage abort does leave a partial response on
the byte stream: with the write-stage scope firing after five bytes, the
session ends aborted while the stream holds five bytes of the assembled 200
"Smith" response — neither the whole response nor none of it. -/
theorem claim_C7_counterexample :
    (run_session_wire envPartialWrite).1 = SessionResult.failed Exn.operationAborted ∧
      (run_session_wire envPartialWrite).2 = StreamState.partOf resSmith 5 ∧
      ¬ (run_session_wire envPartialWrite).2 = StreamState.empty ∧
      ¬ (run_session_wire envPartialWrite).2 = StreamState.whole resSmith := by
  decide

/-- C7 (amended): the response is fully assembled — version stamped,
keep-alive disabled, payload prepared — before any byte of it is sent, and
whatever the stream holds, prefix or whole, is such an assembled response; a
session aborted before the write stage leaves the stream empty, a completed
session leaves exactly its whole response, and a partial response can sit on
the stream only because a write-stage failure or timeout aborted the session
mid-transfer — so full-or-nothing does not hold for write-stage aborts. -/
theorem claim_C7_amended (env : SessionEnvW) :
    (∀ e, env.readResult = Except.error e →
      run_session_wire env = (SessionResult.failed e, StreamState.empty)) ∧
    (∀ r k, (run_session_wire env).2 = StreamState.partOf r k →
      r.prepared = true ∧ r.keepAlive = false ∧
        ∃ e, (run_session_wire env).1 = SessionResult.failed e) ∧
    (∀ r, (run_session_wire env).2 = StreamState.whole r →
      r.prepared = true ∧ r.keepAlive = false) ∧
    (∀ r, (run_session_wire env).1 = SessionResult.done r →
      (run_session_wire env).2 = StreamState.whole r) := by
  rcases hr : env.readResult with e0 | req
  · rw [show run_session_wire env = (SessionResult.failed e0, StreamState.empty) by
      simp [run_session_wire, hr]]
    refine ⟨fun e h => ?_, fun r k h => by simp at h, fun r h => by simp at h,
      fun r h => by simp at h⟩
    simp only [Except.error.injEq] at h
    rw [h]
  · rcases hw : env.writeOutcome with _ | ⟨k0, e0⟩
    · rw [show run_session_wire env =
          (SessionResult.done
            { (handle_request (env.backend.withCancel env.handleCancel) req).1 with
                version := req.version, keepAlive := false, prepared := true },
           StreamState.whole
            { (handle_request (env.backend.withCancel env.handleCancel) req).1 with
                version := req.version, keepAlive := false, prepared := true }) by
        simp [run_session_wire, hr, hw, async_write_stream]]
      refine ⟨fun e h => by simp at h,
        fun r k h => by simp at h, fun r h => ?_, fun r h => ?_⟩
      · simp only [StreamState.whole.injEq] at h
        rw [← h]
        exact ⟨rfl, rfl⟩
      · simp only [SessionResult.done.injEq] at h
        rw [← h]
    · rcases k0 with _ | k0
      · rw [show run_session_wire env = (SessionResult.failed e0, StreamState.empty) by
          simp [run_session_wire, hr, hw, async_write_stream]]
        exact ⟨fun e h => by simp at h,
          fun r k h => by simp at h, fun r h => by simp at h, fun r h => by simp at h⟩
      · rw [show run_session_wire env =
            (SessionResult.failed e0,
             StreamState.partOf
              { (handle_request (env.backend.withCancel env.handleCancel) req).1 with
                  version := req.version, keepAlive := false, prepared := true } (k0 + 1)) by
          simp [run_session_wire, hr, hw, async_write_stream]]
        refine ⟨fun e h => by simp at h,
          fun r k h => ?_, fun r h => by simp at h, fun r h => by simp at h⟩
        simp only [StreamState.partOf.injEq] at h
        exact ⟨by rw [← h.1], by rw [← h.1], e0, rfl⟩

/-- C7 (witness): the amended statement evaluated on a session aborted while
reading (empty stream), on the five-byte write-stage abort (an assembled
partial response, session aborted), and on a completed session (the whole
assembled response). -/
theorem claim_C7_witness :
    run_session_wire envWireReadFail =
        (SessionResult.failed Exn.protocolError, StreamState.empty) ∧
      resSmith.prepared = true ∧ resSmith.keepAlive = false ∧
      (∃ e, (run_session_wire envPartialWrite).1 = SessionResult.failed e) ∧
      (run_session_wire envWireDone).2 = StreamState.whole resSmith :=
  ⟨(claim_C7_amended envWireReadFail).1 Exn.protocolError rfl,
    ((claim_C7_amended envPartialWrite).2.1 resSmith 5 (by decide)).1,
    ((claim_C7_amended envPartialWrite).2.1 resSmith 5 (by decide)).2.1,
    ((claim_C7_amended envPartialWrite).2.1 resSmith 5 (by decide)).2.2,
    (claim_C7_amended envWireDone).2.2.2 resSmith (by decide)⟩

/-- C8 (counterexample): in 1_sync.cpp a session failure is neither logged
nor isolated: with two pending connections, the first session's
`bad_optional_access` escapes the accept loop, and the second connection is
never accepted. -/
theorem claim_C8_counterexample :
    run_session_sync badSyncEnv = Except.error Exn.badOptionalAccess ∧
      main_sync_loop [badSyncEnv, goodSyncEnv] = (1, some Exn.badOptionalAccess) ∧
      ¬ (main_sync_loop [badSyncEnv, goodSyncEnv]).1 = 2 := by
  decide

/-- C8 (amended): in the asynchronous servers every failure escaping a
session is handed to the spawn callback, which logs it, and the accept loop
accepts every pending connection regardless of session failures; in the
synchronous variant, the first session failure escapes the accept loop and
stops the listener, leaving the remaining connections unaccepted. -/
theorem claim_C8_amended :
    (∀ envs : List SessionEnv, (listener_run envs).1 = envs.length) ∧
    (∀ (envs : List SessionEnv) (env : SessionEnv) (e : Exn), env ∈ envs →
      (run_session env).1 = SessionResult.failed e →
        Event.logError e ∈ (listener_run envs).2) ∧
    (∀ (env : SyncEnv) (e : Exn) (rest : List SyncEnv),
      run_session_sync env = Except.error e →
        main_sync_loop (env :: rest) = (1, some e)) :=
  ⟨listener_run_accepts_all,
    fun _ _ _ hm h => listener_run_logs hm h,
    fun _ _ rest h => main_sync_loop_crash h rest⟩

/-- C8 (witness): the amended statement evaluated on a one-session listener
whose session dies reading, and on the crashing synchronous session. -/
theorem claim_C8_witness :
    (listener_run [envReadFail, envHandleTimeout]).1 = 2 ∧
      Event.logError Exn.protocolError ∈ (listener_run [envReadFail, envHandleTimeout]).2 ∧
      main_sync_loop [badSyncEnv] = (1, some Exn.badOptionalAccess) :=
  ⟨claim_C8_amended.1 [envReadFail, envHandleTimeout],
    claim_C8_amended.2.1 [envReadFail, envHandleTimeout] envReadFail Exn.protocolError
      (List.mem_cons_self envReadFail [envHandleTimeout]) rfl,
    claim_C8_amended.2.2 badSyncEnv Exn.badOptionalAccess [] (by decide)⟩

/-- C9 (counterexample): `ctx.stop()` does not let an already-started session
run to its natural completion: in a queue where session 0 has been accepted
and still has resumptions pending behind the signal, the accept ran but the
session's completing resumption never does. -/
theorem claim_C9_counterexample :
    Work.accept 0 ∈ ctx_run schedule0 ∧
      Work.finish 0 ∈ schedule0 ∧
      ¬ Work.finish 0 ∈ ctx_run schedule0 := by
  decide

/-- C9 (amended): on the shutdown signal, `ctx.stop()` ends the run loop: no
handler queued behind the signal executes, so no new connection is accepted
and no new work is admitted — but for the same reason an in-flight session is
abandoned rather than run to completion: its resumptions pending behind the
signal, its completing one included, never execute; absent the signal, every
queued handler runs and the listener never stops by itself. -/
theorem claim_C9_amended :
    (∀ xs ys : List Work,
      ctx_run (xs ++ Work.signal :: ys) = ctx_run (xs ++ [Work.signal])) ∧
    (∀ (xs ys : List Work) (sid : Nat), ¬ Work.finish sid ∈ xs →
      ¬ Work.finish sid ∈ ctx_run (xs ++ Work.signal :: ys)) ∧
    (∀ xs : List Work, ¬ Work.signal ∈ xs → ctx_run xs = xs) :=
  ⟨ctx_run_signal_absorb,
    fun _ _ _ h => ctx_run_abandons h,
    fun _ h => ctx_run_no_signal h⟩

/-- C9 (witness): the amended statement evaluated on the concrete queue in
which session 0 is in flight when the signal arrives, and on a signal-free
queue. -/
theorem claim_C9_witness :
    ¬ Work.finish 0 ∈
        ctx_run ([Work.accept 0, Work.step 0] ++ Work.signal :: [Work.step 0, Work.finish 0]) ∧
      ctx_run [Work.accept 1, Work.step 1, Work.finish 1] =
        [Work.accept 1, Work.step 1, Work.finish 1] :=
  ⟨claim_C9_amended.2.1 [Work.accept 0, Work.step 0] [Work.step 0, Work.finish 0] 0 (by decide),
    claim_C9_amended.2.2 [Work.accept 1, Work.step 1, Work.finish 1] (by decide)⟩

/-- C10: when the query returns a row whose first field is not a string value
(a NULL last_name, say), the handler answers with a 500-equivalent response
instead of a 200: `as_string` throws `bad_field_access`, the catch-all logs
it, and the connection is still released exactly once. -/
theorem claim_C10 (b : Backend) (req : Request) (i : Int) (f : SqlField)
    (rest : List SqlField) (rrest : List (List SqlField))
    (hp : parse_request req = some i) (ha : b.acquire = Except.ok ())
    (hq : b.query i = Except.ok ((f :: rest) :: rrest)) (hf : ∀ s, ¬ f = SqlField.str s) :
    (handle_request b req).1.status = 500 ∧
      Event.logError Exn.badFieldAccess ∈ (handle_request b req).2 ∧
      (handle_request b req).2.countP isRelease = 1 := by
  rw [handle_request_row_not_str hp ha hq hf]
  exact ⟨rfl, by simp, rfl⟩

/-- C10 (witness): the statement evaluated on the id-7 row whose last_name is
NULL. -/
theorem claim_C10_witness :
    (handle_request backendNull req7).1.status = 500 ∧
      Event.logError Exn.badFieldAccess ∈ (handle_request backendNull req7).2 ∧
      (handle_request backendNull req7).2.countP isRelease = 1 :=
  claim_C10 backendNull req7 7 SqlField.null [] [] (by decide) rfl (by decide)
    (fun s h => by cases h)
